import Mathlib

/-!
Verification of the CS152 Discord moderation bot (report lifecycle, conversation
engine, reaction dispatch, countdown timer) against its specification.

The definitions below are a shallow embedding of the Python sources:
  report.py    (Report / UserReport lifecycle, Flow engine, review flows)
  reactions.py (Reaction registry and ReactionDelegator dispatch)
  flow.py      (second snapshot of the Flow engine; shares the cited logic)
  bot.py       (ModBot client state)
Each definition carries a comment naming the source lines it embeds.
Platform I/O (sending, editing, deleting Discord messages, DMs) is modelled as
an explicit list of emitted effects; the cooperative asyncio scheduling that
matters for the race claims is modelled by an explicit interleaving of atomic
segments separated by the suspension points of the source.
-/

namespace CS152

/-- Discord user / moderator identity (discord.Member.id). -/
abbrev ModId := Nat

/-- report.py lines 48-56: the eight abuse categories. -/
inductive AbuseType where
  | SPAM | HATEFUL | SEXUAL | HARASS | BULLYING | HARMFUL | VIOLENCE | CSAM
deriving DecidableEq, Repr

/-- report.py lines 43-46: report lifecycle status. -/
inductive ReportStatus where
  | NEW | PENDING | RESOLVED
deriving DecidableEq, Repr

/-! ## Urgency (claim C4)

report.py lines 186-211, UserReport.__init__: the urgency is computed from the
creation flow by an if/elif chain over the abuse type, reading
report_creation_flow.victim == report_creation_flow.reporter for HARASS and
report_creation_flow.urgent for VIOLENCE / HARMFUL.  We pass those two reads
as the booleans victimIsReporter and urgent. -/

/-- report.py lines 188-200: the urgency assigned by UserReport.__init__. -/
def urgencyValue (abuse_type : AbuseType) (victimIsReporter urgent : Bool) : Nat :=
  if abuse_type = .SPAM then 0
  else if abuse_type = .HATEFUL ∨ abuse_type = .SEXUAL then 1
  else if abuse_type = .HARASS then (if victimIsReporter then 3 else 2)
  else if abuse_type = .BULLYING then 3
  else if abuse_type = .VIOLENCE ∨ abuse_type = .HARMFUL then (if urgent then 4 else 3)
  else 4  -- the remaining case is CSAM (report.py lines 199-200)

/-- report.py line 83: the tuple indexed by self.urgency in Report.as_embed.
Indexing a 5-tuple is partial, hence the Option result. -/
def urgencyFieldValue (urgency : Nat) : Option String :=
  ["Very Low", "Low", "Moderate", "High", "Very High"].get? urgency

/-! ## Report lifecycle (claims C1, C2, C10; shared by C3)

A Report (report.py lines 59-70) keeps status, assignee, resolution_time,
review_flow and the set self._channel_messages of mirror messages, each stored
as a triple (message, assignable, self_destructible).  A mirror additionally
carries a live claim-affordance registration when send_to_channel attached the
hand Reaction (line 120).  The client (bot.py ModBot) owns the
pending_reports map from moderator id to that moderator's live review flow;
a review flow is modelled by the id of the report it reviews.  Entries set to
None by unassign/resolve and absent entries are both falsy under
pending_reports.get(user.id, None) (line 127), so both are modelled as none.

Platform calls are recorded as Effect values in the order the source issues
them. -/

/-- One rendered mirror of a report (an element of Report._channel_messages,
report.py line 117, together with its live claim-affordance registration). -/
structure Mirror where
  msgId : Nat
  assignable : Bool
  self_destructible : Bool
  claimAffordance : Bool
deriving DecidableEq, Repr

/-- Platform side effects issued by the lifecycle operations. -/
inductive Effect where
  /-- discordReaction.message.remove_reaction(discordReaction, user) -/
  | removeUserReaction (msgId : Nat) (user : ModId)
  /-- the DM "You already have a report assigned to you. ..." (report.py line 133) -/
  | privateNotice (user : ModId)
  /-- Report.update_embeds re-editing every mirror (report.py lines 103-105) -/
  | updateEmbeds
  /-- deletion of a self-destructible mirror message (report.py line 181) -/
  | deleteMessage (msgId : Nat)
  /-- re-registration of the claim affordance on a mirror (report.py line 172) -/
  | registerAffordance (msgId : Nat)
  /-- the DM "Your report has been resolved ..." (report.py line 242) -/
  | dmAuthorResolved
deriving DecidableEq, Repr

/-- The in-memory fields of one Report (report.py lines 59-70). -/
structure ReportState where
  status : ReportStatus
  assignee : Option ModId
  resolution_time : Option Nat
  /-- Report.review_flow, modelled by the moderator the flow is bound to. -/
  review_flow : Option ModId
  mirrors : List Mirror
deriving DecidableEq, Repr

/-- The shared client state: all reports (indexed by report id) and
ModBot.pending_reports (the map mutated at report.py lines 127, 159, 166, 177). -/
structure SysState where
  reports : Nat → ReportState
  pending_reports : ModId → Option Nat

/-- report.py lines 153-159, Report.assign_to: set assignee, set_status(PENDING)
(which re-renders every mirror), build the review flow, and store it in
client.pending_reports[moderator.id]. -/
def assign_to (m : ModId) (r : Nat) (s : SysState) : SysState :=
  let rep := { s.reports r with assignee := some m, status := .PENDING, review_flow := some m }
  { reports := fun n => if n = r then rep else s.reports n,
    pending_reports := fun u => if u = m then some r else s.pending_reports u }

/-- report.py lines 138-150, the else branch of Report.reaction_attempt_assign:
asyncio.gather of (a) reaction.unregister_message on the clicked mirror only,
(b) removing the user's emoji, (c) assign_to.  The resulting state: the report
is assigned to m and the clicked mirror's claim affordance is deregistered.
The other mirrors keep their affordances (unregister_message filters on the
clicked message, reactions.py lines 42-46). -/
def claimSuccessState (m : ModId) (r : Nat) (msgId : Nat) (s : SysState) : SysState :=
  let s1 := assign_to m r s
  let rep := s1.reports r
  let mirrors2 := rep.mirrors.map
    (fun mir => if mir.msgId = msgId then { mir with claimAffordance := false } else mir)
  let rep2 := { rep with mirrors := mirrors2 }
  { s1 with reports := fun n => if n = r then rep2 else s1.reports n }

/-- report.py lines 126-150, Report.reaction_attempt_assign, the click handler
of the claim affordance: if client.pending_reports.get(user.id, None) is truthy
the attempt is rejected (the user's emoji is removed and they are DMed a
private notice; nothing else changes); otherwise the report is assigned. -/
def reaction_attempt_assign (m : ModId) (r : Nat) (msgId : Nat) (s : SysState) :
    SysState × List Effect :=
  match s.pending_reports m with
  | some _ => (s, [.removeUserReaction msgId m, .privateNotice m])
  | none => (claimSuccessState m r msgId s, [.removeUserReaction msgId m, .updateEmbeds])

/-- The state after the non-trivial branch of Report.unassign
(report.py lines 165-172): set_status(NEW), pending_reports[m] cleared,
assignee and review_flow cleared, claim affordance re-registered on every
assignable mirror. -/
def unassignedState (m : ModId) (r : Nat) (s : SysState) : SysState :=
  let rep := s.reports r
  let rep2 := { rep with
    status := .NEW,
    assignee := none,
    review_flow := none,
    mirrors := rep.mirrors.map
      (fun mir => if mir.assignable then { mir with claimAffordance := true } else mir) }
  { reports := fun n => if n = r then rep2 else s.reports n,
    pending_reports := fun u => if u = m then none else s.pending_reports u }

/-- report.py lines 162-172, Report.unassign: early return when assignee is
None; otherwise move to unassignedState, re-rendering every mirror and
re-registering the claim affordance on the assignable ones. -/
def unassignReport (r : Nat) (s : SysState) : SysState × List Effect :=
  match (s.reports r).assignee with
  | none => (s, [])
  | some m =>
    (unassignedState m r s,
     .updateEmbeds ::
       ((s.reports r).mirrors.filter (fun mir => mir.assignable)).map
         (fun mir => .registerAffordance mir.msgId))

/-- The state after Report.resolve (report.py lines 174-182): resolution_time
stamped with the current time, set_status(RESOLVED),
pending_reports[assignee] cleared, review_flow cleared (assignee is KEPT),
and every self-destructible mirror removed from _channel_messages. -/
def resolvedState (now : Nat) (m : ModId) (r : Nat) (s : SysState) : SysState :=
  let rep := s.reports r
  let rep2 := { rep with
    resolution_time := some now,
    status := .RESOLVED,
    review_flow := none,
    mirrors := rep.mirrors.filter (fun mir => !mir.self_destructible) }
  { reports := fun n => if n = r then rep2 else s.reports n,
    pending_reports := fun u => if u = m then none else s.pending_reports u }

/-- report.py lines 174-182, Report.resolve.  Line 177 dereferences
self.assignee.id, so a report with no assignee raises AttributeError,
modelled as none.  Each deleted self-destructible mirror contributes a
deleteMessage effect (line 181). -/
def resolveReport (now : Nat) (r : Nat) (s : SysState) :
    Option (SysState × List Effect) :=
  match (s.reports r).assignee with
  | none => none
  | some m =>
    some (resolvedState now m r s,
          .updateEmbeds ::
            ((s.reports r).mirrors.filter (fun mir => mir.self_destructible)).map
              (fun mir => .deleteMessage mir.msgId))

/-- report.py lines 240-242, UserReport.resolve: Report.resolve, then
unconditionally DM the report's author that their report has been resolved. -/
def resolveUserReport (now : Nat) (r : Nat) (s : SysState) :
    Option (SysState × List Effect) :=
  match resolveReport now r s with
  | none => none
  | some (s2, eff) => some (s2, eff ++ [.dmAuthorResolved])

/-! ### Reachable system states

The operations above are invoked from: the claim-affordance click handler
(reaction_attempt_assign, any moderator, any time), and the review flows'
perform_action "unassign" / "resolve" (report.py lines 1343-1348 and the
per-category copies), which re-validate report.status == PENDING and
reviewer.id == report.assignee.id before acting (lines 1264-1274). -/

/-- One system transition: a claim click, or a guarded unassign / resolve
action issued from a review flow. -/
inductive Step : SysState → SysState → Prop where
  | claim (m r msgId : Nat) {s : SysState} :
      Step s (reaction_attempt_assign m r msgId s).1
  | unassignAct (m r : Nat) {s : SysState} :
      (s.reports r).status = .PENDING → (s.reports r).assignee = some m →
      Step s (unassignReport r s).1
  | resolveAct (now m r : Nat) {s s2 : SysState} {eff : List Effect} :
      (s.reports r).status = .PENDING → (s.reports r).assignee = some m →
      resolveReport now r s = some (s2, eff) →
      Step s s2

/-- An initial state: every report NEW and unassigned, no pending review flow. -/
def InitOk (s : SysState) : Prop :=
  (∀ r, (s.reports r).status = .NEW ∧ (s.reports r).review_flow = none) ∧
  (∀ m, s.pending_reports m = none)

/-- States reachable from s0 by lifecycle transitions. -/
inductive Reachable (s0 : SysState) : SysState → Prop where
  | refl : Reachable s0 s0
  | tail {s s2 : SysState} : Reachable s0 s → Step s s2 → Reachable s0 s2

/-- Moderator m holds report r: r is PENDING and assigned to m. -/
def Holds (s : SysState) (m : ModId) (r : Nat) : Prop :=
  (s.reports r).status = .PENDING ∧ (s.reports r).assignee = some m

/-- Each moderator is the assignee of at most one pending report. -/
def AssignExclusive (s : SysState) : Prop :=
  ∀ m r1 r2, Holds s m r1 → Holds s m r2 → r1 = r2

/-- A moderator with no live pending_reports entry holds no report. -/
def PendingCovers (s : SysState) : Prop :=
  ∀ m r, s.pending_reports m = none → ¬ Holds s m r

/-- A live review flow is always bound to the pending report it reviews. -/
def ReviewBound (s : SysState) : Prop :=
  ∀ m r, (s.reports r).review_flow = some m → Holds s m r

/-- The inductive invariant of the lifecycle system. -/
def Inv (s : SysState) : Prop :=
  AssignExclusive s ∧ PendingCovers s ∧ ReviewBound s

/-! ## The claim path under cooperative scheduling (claim C3)

Under asyncio, a claim attempt (a click on the claim affordance) executes
Report.reaction_attempt_assign as its own task.  Its successful branch
(report.py lines 138-150) runs asyncio.gather over three coroutines:

  reaction.unregister_message(...)  -- reactions.py 42-46: its FIRST statement
                                    -- awaits message.remove_reaction (a
                                    -- platform call); only after that await
                                    -- completes does it remove the
                                    -- registration from the registry
  discordReaction.message.remove_reaction(...)  -- platform call
  self.assign_to(user)              -- report.py 153-159: mutates assignee,
                                    -- status, review flow and pending_reports
                                    -- with no intervening await when the
                                    -- moderator's DM channel already exists

So the atomic segments of one claim attempt, in cooperative execution order,
are: the pending_reports guard (line 127), a suspension (the platform await
inside the gather), the assignment mutations, a further suspension (waiting
for remove_reaction to complete), and finally the registry deregistration of
the clicked mirror. -/

/-- One atomic segment of a claim attempt. -/
inductive ClaimStep where
  | guard | suspend | assign | deregister
deriving DecidableEq, Repr

/-- The ordered segments of one claim attempt (see the section comment).
Note that the deregistration is the LAST segment, after two suspension
points, and that no segment re-reads the report status. -/
def claimScript : List ClaimStep := [.guard, .suspend, .assign, .suspend, .deregister]

/-- A claim attempt in flight: who is claiming, which mirror was clicked,
the program counter into claimScript, and whether the guard rejected it. -/
structure Attempt where
  mod : ModId
  msgId : Nat
  pc : Nat
  rejected : Bool
deriving DecidableEq, Repr

/-- Execute the current segment of one claim attempt against the shared
client state (the report being claimed is r). -/
def execClaimStep (r : Nat) (st : SysState) (a : Attempt) : SysState × Attempt :=
  match claimScript.get? a.pc with
  | none => (st, a)
  | some .guard =>
    match st.pending_reports a.mod with
    | some _ => (st, { a with rejected := true, pc := claimScript.length })
    | none => (st, { a with pc := a.pc + 1 })
  | some .suspend => (st, { a with pc := a.pc + 1 })
  | some .assign => (assign_to a.mod r st, { a with pc := a.pc + 1 })
  | some .deregister =>
    let rep := st.reports r
    let mirrors2 := rep.mirrors.map
      (fun mir => if mir.msgId = a.msgId then { mir with claimAffordance := false } else mir)
    let rep2 := { rep with mirrors := mirrors2 }
    ({ st with reports := fun n => if n = r then rep2 else st.reports n },
     { a with pc := a.pc + 1 })

/-- Run two concurrent claim attempts on report r under an explicit
cooperative schedule: true means the first attempt runs its next segment,
false the second.  Between suspension points segments are atomic. -/
def runSched (r : Nat) : List Bool → SysState × Attempt × Attempt → SysState × Attempt × Attempt
  | [], st => st
  | b :: rest, (st, a1, a2) =>
    if b then
      let p := execClaimStep r st a1
      runSched r rest (p.1, p.2, a2)
    else
      let p := execClaimStep r st a2
      runSched r rest (p.1, a1, p.2)

/-! ## Conversation engine: keyword sets (report.py lines 10-15) -/

/-- Python str.lower on one character, for the ASCII text the keyword
comparisons see. -/
def lowerChar (c : Char) : Char :=
  if 65 ≤ c.toNat ∧ c.toNat ≤ 90 then Char.ofNat (c.toNat + 32) else c

/-- Python str.lower, as applied to messages before keyword comparison
(e.g. message.lower() at report.py lines 543, 644, 1166). -/
def lowerStr (s : String) : String := String.mk (s.data.map lowerChar)

def HELP_KEYWORDS : List String := ["help", "?"]

def CANCEL_KEYWORDS : List String := ["cancel", "quit", "exit"]

def YES_KEYWORDS : List String := ["yes", "y", "yeah", "yup", "sure"]

def NO_KEYWORDS : List String := ["no", "n", "nah", "naw", "nope"]

/-! ## Report creation flow (claims C5, C6)

UserReportCreationFlow (report.py lines 782-1215) is the Flow with the
declared quit state REPORT_QUIT.  The quit round trip of claim C5 executes:
Flow.forward_message (538-552), Flow.resolve_message (555-564),
Flow.transition_to_state (597-603) and report_quit (1158-1172), plus the
introducing=True branch of the state being reverted to.  The typed-input
(non-introducing) questionnaire handlers of the other states are not part of
that round trip and are left out of the model; only their introductions
matter, and every introduction except those of REPORT_START and FINISH_REPORT
renders output without touching flow state or fields. -/

/-- report.py lines 783-795: the creation-flow states. -/
inductive CState where
  | REPORT_START | AWAITING_MESSAGE_LINK | AWAITING_ABUSE_TYPE | ADD_COMMENT
  | CHECK_IF_VICTIM | ASK_FOR_VICTIM | SUICIDE_CHECK | CURRENT_EVENTS_CHECK
  | FINALIZE_REPORT | FINISH_REPORT | REPORT_QUIT
deriving DecidableEq, Repr

/-- The flow-local fields a UserReportCreationFlow accumulates (abuse_type at
lines 908-952, victim at 975/998/1033, urgent at 1067/1075/1094/1102,
comments at 1119-1122, sent_report at 1137).  An outer none models an
attribute that has not been set yet (the source sets them dynamically and
guards with hasattr). -/
structure CFields where
  abuse_type : Option AbuseType
  victim : Option (Option ModId)
  urgent : Option Bool
  comments : Option (Option String)
  sent_report : Bool
deriving DecidableEq, Repr

/-- A running UserReportCreationFlow together with the client.user_reports
entry that owns it. -/
structure CreationFlow where
  state : CState
  prequit_state : Option CState
  fields : CFields
  user_report_open : Bool
deriving DecidableEq, Repr

/-- The introducing=True behaviour of each creation-flow state handler:
report_start (805-812) renders text and then transitions to
AWAITING_MESSAGE_LINK (whose introduction renders text only);
finish_report (1150-1152) deletes client.user_reports[reporter.id];
every other introduction (819-823, 886-899, 968-971, 988-994, 1059-1063,
1086-1090, 1110-1116, 1128-1133, 1159-1163) only renders output. -/
def creationIntro (s : CState) (f : CreationFlow) : CreationFlow :=
  match s with
  | .REPORT_START => { f with state := .AWAITING_MESSAGE_LINK }
  | .FINISH_REPORT => { f with user_report_open := false }
  | _ => f

/-- report.py lines 597-603, Flow.transition_to_state: set self.state, then
run the new state handler with introducing=True. -/
def creationTransition (s : CState) (f : CreationFlow) : CreationFlow :=
  creationIntro s { f with state := s }

/-- report.py lines 555-564 (Flow.resolve_message) specialised to the quit
state, plus report_quit (1158-1172): when the flow sits in the quit state
with a pre-quit snapshot, the handler receives the revert callback
(lines 540-542, 556-558); help interception (643-647) answers help keywords
without running the body; yes discards the flow
(del client.user_reports[...]); no runs revert(), which transitions back to
the snapshotted state and then clears _prequit_state; anything else re-asks.
The questionnaire handlers reached through the catch-all are not modelled
(see the section comment). -/
def creationResolve (msg : String) (f : CreationFlow) : CreationFlow :=
  match f.state, f.prequit_state with
  | .REPORT_QUIT, some pq =>
    if HELP_KEYWORDS.contains (lowerStr msg) then f
    else if YES_KEYWORDS.contains (lowerStr msg) then { f with user_report_open := false }
    else if NO_KEYWORDS.contains (lowerStr msg) then
      { creationTransition pq f with prequit_state := none }
    else f
  | _, _ => f

/-- report.py lines 538-552, Flow.forward_message: a cancel keyword (with the
quit state declared) snapshots the current state into _prequit_state,
switches to REPORT_QUIT and renders its introduction (1159-1163, output
only); otherwise the message is dispatched through resolve_message. -/
def creationForward (msg : String) (f : CreationFlow) : CreationFlow :=
  if CANCEL_KEYWORDS.contains (lowerStr msg) then
    { f with prequit_state := some f.state, state := .REPORT_QUIT }
  else
    creationResolve msg f

/-- report.py lines 611-616 (identically flow.py lines 136-141),
Flow.simulate_reply_handler: the handler captures frozenState := self.state
at creation time; when later invoked it simulates the reply (which re-enters
forward_message) only if self.state still equals the frozen state. -/
def simulate_reply_handler (frozenState : CState) (msg : String) (f : CreationFlow) :
    CreationFlow :=
  if f.state = frozenState then creationForward msg f else f

/-! ## Report review flow quit state (claim C5 counterexample)

UserReportReviewFlow (report.py lines 1219-1550) also declares a quit state
(REVIEW_QUIT, line 1257), but its review_quit handler (1549-1550) performs
perform_action("unassign") for every invocation, introducing or not; it
ignores the message and never calls revert. -/

/-- report.py lines 1220-1229: the review-flow states. -/
inductive RState where
  | REVIEW_START | REVIEW_RESTART | CONFIRM_DELETE | CONFIRM_KICK | CONFIRM_BAN
  | CONFIRM_ESCALATE | CONFIRM_NCMEC | REVIEW_QUIT
deriving DecidableEq, Repr

/-- A running UserReportReviewFlow with the report fields its actions read. -/
structure ReviewFlow where
  state : RState
  prequit_state : Option RState
  reviewer : ModId
  report_status : ReportStatus
  report_assignee : Option ModId
deriving DecidableEq, Repr

/-- report.py lines 1263-1274 and 1343-1345: perform_action("unassign")
re-validates the report (warn-only when NEW, RESOLVED, or assigned to someone
else) and otherwise runs Report.unassign; it does not change the flow state. -/
def reviewUnassignAction (f : ReviewFlow) : ReviewFlow :=
  if f.report_status = .NEW then f
  else if f.report_status = .RESOLVED then f
  else if f.report_assignee = some f.reviewer then
    { f with report_status := .NEW, report_assignee := none }
  else f

/-- Flow.resolve_message specialised to the review flow quit state:
review_quit (1549-1550) runs perform_action("unassign") whatever the message
is and never reverts.  The command handlers of the other states are not part
of the quit round trip and are not modelled. -/
def reviewResolve (_msg : String) (f : ReviewFlow) : ReviewFlow :=
  match f.state, f.prequit_state with
  | .REVIEW_QUIT, some _ => reviewUnassignAction f
  | _, _ => f

/-- Flow.forward_message (538-552) for the review flow: a cancel keyword
snapshots the state, switches to REVIEW_QUIT and runs its introduction,
which is review_quit, i.e. perform_action("unassign"). -/
def reviewForward (msg : String) (f : ReviewFlow) : ReviewFlow :=
  if CANCEL_KEYWORDS.contains (lowerStr msg) then
    reviewUnassignAction { f with prequit_state := some f.state, state := .REVIEW_QUIT }
  else
    reviewResolve msg f

/-! ## Reaction dispatch (claim C7) -/

/-- One entry of the process-wide _registeredMessages list
(reactions.py lines 38-40, 78): the message the Reaction object was attached
to, the identity of that Reaction object (regId), its emoji and its
once_per_message flag. -/
structure RegEntry where
  msgId : Nat
  regId : Nat
  emoji : Nat
  once_per_message : Bool
deriving DecidableEq, Repr

/-- The process-wide registration table _registeredMessages. -/
abbrev Registry := List RegEntry

/-- reactions.py lines 42-46, Reaction.unregister_message: remove every
(message, reaction) pair matching the given message and Reaction object.
(The source removes while iterating, which can skip an element after a
removal; registrations are unique per (message, reaction) pair, for which
removal of every matching pair is the same behaviour.) -/
def unregister_message (msgId regId : Nat) (reg : Registry) : Registry :=
  reg.filter (fun e => !(e.msgId == msgId && e.regId == regId))

/-- reactions.py lines 51-65, ReactionDelegator.on_reaction_add: ignore the
bot's own reactions; otherwise, for every registration on the reacted-to
message, fire its click and toggle handlers when the emoji matches, and
collect it for removal when once_per_message is set -- NOTE the removal
collection (lines 62-63) is outside the emoji comparison (line 57), so it
happens for every registration on the message whatever emoji arrived.
Returns the registry after the scheduled unregister_message calls, and the
regIds whose handlers fired. -/
def on_reaction_add (clientUser user : ModId) (msgId emoji : Nat) (reg : Registry) :
    Registry × List Nat :=
  if user = clientUser then (reg, [])
  else
    let fired := (reg.filter (fun e => e.msgId == msgId && e.emoji == emoji)).map
      (fun e => e.regId)
    let removeAfter := reg.filter (fun e => e.msgId == msgId && e.once_per_message)
    (removeAfter.foldl (fun acc e => unregister_message e.msgId e.regId acc) reg, fired)

/-! ## Edited-message countdown flow (claims C8, C9)

EditedBadMessageFlow (report.py lines 651-778) owns the countdown task
_second_timer started at construction (line 666).  Its per-flow fields
relevant here: state, time_elapsed, expiration_time, second_timer_cancelled,
timer_message (modelled as a liveness flag), plus whether the flow has been
closed (removed from client.flows / client.messages_pending_edit, lines
777-778) and whether the flagged user message has been deleted. -/

/-- report.py lines 652-658: the flow states. -/
inductive EState where
  | START | RESEND | UNACCEPTABLE_EDIT | ACCEPTABLE_EDIT | TIME_EXPIRED
deriving DecidableEq, Repr

/-- A Python exception escaping the executing task. -/
inductive PyError where
  | attributeError
deriving DecidableEq, Repr

/-- The classifier scores read by edited() (report.py lines 750-758). -/
structure Scores where
  spam : ℚ
  threat : ℚ
  identity_attack : ℚ
  severe_toxicity : ℚ
  toxicity : ℚ
  insult : ℚ
deriving DecidableEq, Repr

/-- report.py lines 749-759: the threshold chain of edited(). -/
def still_bad (sc : Scores) : Bool :=
  if sc.spam > 4/5 then true
  else if sc.threat > 3/4 then true
  else if sc.identity_attack > 3/4 then true
  else if sc.severe_toxicity > 9/10 then true
  else if sc.toxicity > 9/10 ∨ sc.insult > 9/10 then true
  else false

/-- The countdown flow state. -/
structure EFlow where
  state : EState
  time_elapsed : Nat
  expiration_time : Nat
  second_timer_cancelled : Bool
  timer_message_live : Bool
  closed : Bool
  message_deleted : Bool
deriving DecidableEq, Repr

/-- report.py lines 774-778, EditedBadMessageFlow.close: delete the timer
card, clear the reference, remove the flow from client.flows and
client.messages_pending_edit.  It does NOT touch second_timer or
second_timer_cancelled.  When timer_message is already None, line 775
(self.timer_message.delete()) raises AttributeError. -/
def flowClose (f : EFlow) : EFlow × Option PyError :=
  if f.timer_message_live then
    ({ f with timer_message_live := false, closed := true }, none)
  else
    (f, some .attributeError)

/-- Flow.transition_to_state (597-603) specialised to EditedBadMessageFlow:
set self.state, then run the handler with introducing=True.
start (706-733) renders the warning and creates the timer card;
resend (740-743) deletes the message, re-sends it through the client, closes;
unacceptable_edit (766-768) immediately sets state back to START;
acceptable_edit (770-772) closes the flow and thanks the user;
time_expired (696-703) cancels the countdown task and awaits it, deletes the
flagged message, closes, and announces the deletion. -/
def eTransition (s : EState) (f : EFlow) : EFlow × Option PyError :=
  let f2 := { f with state := s }
  match s with
  | .START => ({ f2 with timer_message_live := true }, none)
  | .RESEND => flowClose { f2 with message_deleted := true }
  | .UNACCEPTABLE_EDIT => ({ f2 with state := .START }, none)
  | .ACCEPTABLE_EDIT => flowClose f2
  | .TIME_EXPIRED =>
    flowClose { f2 with second_timer_cancelled := true, message_deleted := true }

/-- report.py lines 745-764, EditedBadMessageFlow.edited: re-score the new
text; if any threshold is crossed go to UNACCEPTABLE_EDIT, else to
ACCEPTABLE_EDIT. -/
def edited (sc : Scores) (f : EFlow) : EFlow × Option PyError :=
  if still_bad sc then eTransition .UNACCEPTABLE_EDIT f
  else eTransition .ACCEPTABLE_EDIT f

/-- The outcome of the timer-card edit platform call inside the countdown
loop (report.py line 690). -/
inductive EditOutcome where
  | ok | notFound
deriving DecidableEq, Repr

/-- report.py lines 684-694, one iteration of the countdown loop
_second_timer: while not second_timer_cancelled, sleep one second, increment
time_elapsed, re-render the timer card if it is live, and force the
TIME_EXPIRED transition once time_elapsed reaches expiration_time.
The re-render failure handler at line 691 is written
"except discord.errorsNotFound" -- the discord module has no attribute
errorsNotFound (the correct spelling discord.errors.NotFound appears at
report.py line 857) -- so when the edit raises NotFound, evaluating the
except clause itself raises AttributeError, which escapes the task. -/
def timerTick (edit : EditOutcome) (f : EFlow) : EFlow × Option PyError :=
  if f.second_timer_cancelled then (f, none)
  else
    let f2 := { f with time_elapsed := f.time_elapsed + 1 }
    if f2.timer_message_live ∧ edit = .notFound then
      (f2, some .attributeError)
    else if f2.time_elapsed ≥ f2.expiration_time then
      eTransition .TIME_EXPIRED f2
    else (f2, none)

/-! ## Concrete demonstration states -/

/-- A self-destructible assignable mirror (a mod-channel card). -/
def mirror5 : Mirror :=
  { msgId := 5, assignable := true, self_destructible := true, claimAffordance := true }

/-- A non-self-destructible assignable mirror. -/
def mirror6 : Mirror :=
  { msgId := 6, assignable := true, self_destructible := false, claimAffordance := true }

/-- A freshly published report: NEW, unassigned, two mirrors. -/
def blankReport : ReportState :=
  { status := .NEW, assignee := none, resolution_time := none, review_flow := none,
    mirrors := [mirror5, mirror6] }

/-- Initial client state: every report fresh, no pending review flows. -/
def demoInit : SysState :=
  { reports := fun _ => blankReport, pending_reports := fun _ => none }

/-- The state after moderator 1 claims report 0 through mirror 5. -/
def demoClaimed : SysState := (reaction_attempt_assign 1 0 5 demoInit).1

/-- First resolve() of report 0 (as a UserReport) at time 5. -/
def c2first : Option (SysState × List Effect) := resolveUserReport 5 0 demoClaimed

/-- Second resolve() of the same report at time 9. -/
def c2second : Option (SysState × List Effect) :=
  match c2first with
  | some p => resolveUserReport 9 0 p.1
  | none => none

/-- The post-state of the first resolve, named for the C2 witness. -/
def c2s1 : SysState := resolvedState 5 1 0 demoClaimed

/-- The post-state of the second resolve, named for the C2 witness. -/
def c2s2 : SysState := resolvedState 9 1 0 c2s1

/-- Claim attempt by moderator 1 clicking mirror 5. -/
def c3attempt1 : Attempt := { mod := 1, msgId := 5, pc := 0, rejected := false }

/-- Concurrent claim attempt by moderator 2 clicking mirror 6. -/
def c3attempt2 : Attempt := { mod := 2, msgId := 6, pc := 0, rejected := false }

/-- A strictly alternating cooperative schedule of the two attempts. -/
def c3sched : List Bool :=
  [true, false, true, false, true, false, true, false, true, false]

/-- The outcome of the two concurrent claim attempts on NEW report 0. -/
def c3run : SysState × Attempt × Attempt :=
  runSched 0 c3sched (demoInit, c3attempt1, c3attempt2)

/-- Sample creation-flow fields mid-questionnaire. -/
def demoFields : CFields :=
  { abuse_type := some .HARASS, victim := some (some 7), urgent := none,
    comments := none, sent_report := false }

/-- A creation flow resting (transiently) in REPORT_START. -/
def c5creationStart : CreationFlow :=
  { state := .REPORT_START, prequit_state := none, fields := demoFields,
    user_report_open := true }

/-- A review flow at its main menu, its report pending and assigned to the
reviewer. -/
def c5review0 : ReviewFlow :=
  { state := .REVIEW_START, prequit_state := none, reviewer := 1,
    report_status := .PENDING, report_assignee := some 1 }

/-- A creation flow waiting at the comment prompt (C5 witness input). -/
def c5commentFlow : CreationFlow :=
  { state := .ADD_COMMENT, prequit_state := none, fields := demoFields,
    user_report_open := true }

/-- A creation flow whose conversation has moved on to FINALIZE_REPORT since
some affordance was created (C6 witness input). -/
def c6staleFlow : CreationFlow :=
  { state := .FINALIZE_REPORT, prequit_state := none, fields := demoFields,
    user_report_open := true }

def cancelMsg : String := "cancel"

def noMsg : String := "no"

def yesMsg : String := "yes"

/-- Three numbered-choice once-per-message registrations on card 3. -/
def c7entry1 : RegEntry := { msgId := 3, regId := 0, emoji := 11, once_per_message := true }

def c7entry2 : RegEntry := { msgId := 3, regId := 1, emoji := 12, once_per_message := true }

def c7entry3 : RegEntry := { msgId := 3, regId := 2, emoji := 13, once_per_message := true }

def c7reg : Registry := [c7entry1, c7entry2, c7entry3]

/-- Scores that cross no threshold of still_bad. -/
def goodScores : Scores :=
  { spam := 0, threat := 0, identity_attack := 0, severe_toxicity := 0,
    toxicity := 0, insult := 0 }

/-- A countdown flow two ticks away from expiry, timer card live. -/
def c8flow0 : EFlow :=
  { state := .START, time_elapsed := 0, expiration_time := 2,
    second_timer_cancelled := false, timer_message_live := true,
    closed := false, message_deleted := false }

/-- The flow after an acceptable edit closed it. -/
def c8closed : EFlow := (edited goodScores c8flow0).1

/-- One countdown tick after closure. -/
def c8tick1 : EFlow := (timerTick .ok c8closed).1

/-- The second countdown tick after closure, which reaches the expiry. -/
def c8tick2 : EFlow × Option PyError := timerTick .ok c8tick1

/-- A countdown flow mid-window whose timer card has vanished. -/
def c9flow0 : EFlow :=
  { state := .START, time_elapsed := 3, expiration_time := 600,
    second_timer_cancelled := false, timer_message_live := true,
    closed := false, message_deleted := false }

/-! ## Lifecycle lemmas -/

theorem raa_some {s : SysState} {m : ModId} {v : Nat}
    (h : s.pending_reports m = some v) (r msgId : Nat) :
    reaction_attempt_assign m r msgId s =
      (s, [.removeUserReaction msgId m, .privateNotice m]) := by
  unfold reaction_attempt_assign
  rw [h]

theorem raa_none {s : SysState} {m : ModId}
    (h : s.pending_reports m = none) (r msgId : Nat) :
    reaction_attempt_assign m r msgId s =
      (claimSuccessState m r msgId s, [.removeUserReaction msgId m, .updateEmbeds]) := by
  unfold reaction_attempt_assign
  rw [h]

theorem css_pending (m r msgId u : Nat) (s : SysState) :
    (claimSuccessState m r msgId s).pending_reports u =
      if u = m then some r else s.pending_reports u := rfl

theorem css_reports_ne {n r : Nat} (hne : n ≠ r) (m msgId : Nat) (s : SysState) :
    (claimSuccessState m r msgId s).reports n = s.reports n := by
  simp [claimSuccessState, assign_to, hne]

theorem css_status (m r msgId : Nat) (s : SysState) :
    ((claimSuccessState m r msgId s).reports r).status = .PENDING := by
  simp [claimSuccessState, assign_to]

theorem css_assignee (m r msgId : Nat) (s : SysState) :
    ((claimSuccessState m r msgId s).reports r).assignee = some m := by
  simp [claimSuccessState, assign_to]

theorem css_review (m r msgId : Nat) (s : SysState) :
    ((claimSuccessState m r msgId s).reports r).review_flow = some m := by
  simp [claimSuccessState, assign_to]

theorem holds_css {m r msgId : Nat} {s : SysState} {mp rp : Nat} :
    Holds (claimSuccessState m r msgId s) mp rp ↔
      (rp = r ∧ mp = m) ∨ (rp ≠ r ∧ Holds s mp rp) := by
  by_cases hr : rp = r
  · subst hr
    simp [Holds, css_status, css_assignee, eq_comm]
  · simp [Holds, css_reports_ne hr, hr]

theorem unassign_none {r : Nat} {s : SysState}
    (h : (s.reports r).assignee = none) :
    unassignReport r s = (s, []) := by
  unfold unassignReport
  rw [h]

theorem unassign_some {r : Nat} {s : SysState} {m : ModId}
    (h : (s.reports r).assignee = some m) :
    (unassignReport r s).1 = unassignedState m r s := by
  unfold unassignReport
  rw [h]

theorem un_pending (m r u : Nat) (s : SysState) :
    (unassignedState m r s).pending_reports u =
      if u = m then none else s.pending_reports u := rfl

theorem un_reports_ne {n r : Nat} (hne : n ≠ r) (m : Nat) (s : SysState) :
    (unassignedState m r s).reports n = s.reports n := by
  simp [unassignedState, hne]

theorem un_status (m r : Nat) (s : SysState) :
    ((unassignedState m r s).reports r).status = .NEW := by
  simp [unassignedState]

theorem un_review (m r : Nat) (s : SysState) :
    ((unassignedState m r s).reports r).review_flow = none := by
  simp [unassignedState]

theorem holds_un {m r : Nat} {s : SysState} {mp rp : Nat} :
    Holds (unassignedState m r s) mp rp ↔ rp ≠ r ∧ Holds s mp rp := by
  by_cases hr : rp = r
  · subst hr
    simp [Holds, un_status]
  · simp [Holds, un_reports_ne hr, hr]

theorem resolve_eqn {r : Nat} {s : SysState} {m : ModId}
    (h : (s.reports r).assignee = some m) (now : Nat) :
    resolveReport now r s =
      some (resolvedState now m r s,
        .updateEmbeds ::
          ((s.reports r).mirrors.filter (fun mir => mir.self_destructible)).map
            (fun mir => .deleteMessage mir.msgId)) := by
  unfold resolveReport
  rw [h]

theorem res_pending (now m r u : Nat) (s : SysState) :
    (resolvedState now m r s).pending_reports u =
      if u = m then none else s.pending_reports u := rfl

theorem res_reports_ne {n r : Nat} (hne : n ≠ r) (now m : Nat) (s : SysState) :
    (resolvedState now m r s).reports n = s.reports n := by
  simp [resolvedState, hne]

theorem res_status (now m r : Nat) (s : SysState) :
    ((resolvedState now m r s).reports r).status = .RESOLVED := by
  simp [resolvedState]

theorem res_assignee (now m r : Nat) (s : SysState) :
    ((resolvedState now m r s).reports r).assignee = (s.reports r).assignee := by
  simp [resolvedState]

theorem res_review (now m r : Nat) (s : SysState) :
    ((resolvedState now m r s).reports r).review_flow = none := by
  simp [resolvedState]

theorem res_rtime (now m r : Nat) (s : SysState) :
    ((resolvedState now m r s).reports r).resolution_time = some now := by
  simp [resolvedState]

theorem res_mirrors (now m r : Nat) (s : SysState) :
    ((resolvedState now m r s).reports r).mirrors =
      (s.reports r).mirrors.filter (fun mir => !mir.self_destructible) := by
  simp [resolvedState]

theorem holds_res {now m r : Nat} {s : SysState} {mp rp : Nat} :
    Holds (resolvedState now m r s) mp rp ↔ rp ≠ r ∧ Holds s mp rp := by
  by_cases hr : rp = r
  · subst hr
    simp [Holds, res_status]
  · simp [Holds, res_reports_ne hr, hr]

/-- Every lifecycle transition preserves the invariant. -/
theorem step_preserves_inv {s s2 : SysState} (hInv : Inv s) (hstep : Step s s2) :
    Inv s2 := by
  obtain ⟨hEx, hCov, hRB⟩ := hInv
  cases hstep with
  | claim m r msgId =>
    cases hp : s.pending_reports m with
    | some v =>
      have h1 : (reaction_attempt_assign m r msgId s).1 = s := by
        rw [raa_some hp r msgId]
      rw [h1]
      exact ⟨hEx, hCov, hRB⟩
    | none =>
      have h1 : (reaction_attempt_assign m r msgId s).1 = claimSuccessState m r msgId s := by
        rw [raa_none hp r msgId]
      rw [h1]
      refine ⟨?_, ?_, ?_⟩
      · intro mp r1 r2 hh1 hh2
        rcases holds_css.mp hh1 with ⟨hr1, hm1⟩ | ⟨hr1, hH1⟩
        · rcases holds_css.mp hh2 with ⟨hr2, _⟩ | ⟨hr2, hH2⟩
          · rw [hr1, hr2]
          · exact absurd hH2 (hCov mp r2 (by rw [hm1]; exact hp))
        · rcases holds_css.mp hh2 with ⟨hr2, hm2⟩ | ⟨hr2, hH2⟩
          · exact absurd hH1 (hCov mp r1 (by rw [hm2]; exact hp))
          · exact hEx mp r1 r2 hH1 hH2
      · intro mp rp hnone hH
        rw [css_pending] at hnone
        by_cases hm : mp = m
        · rw [if_pos hm] at hnone
          exact Option.noConfusion hnone
        · rw [if_neg hm] at hnone
          rcases holds_css.mp hH with ⟨_, hmp⟩ | ⟨_, hH2⟩
          · exact hm hmp
          · exact hCov mp rp hnone hH2
      · intro mp rp hrev
        by_cases hr : rp = r
        · subst hr
          rw [css_review] at hrev
          have hm : m = mp := Option.some.inj hrev
          subst hm
          exact holds_css.mpr (Or.inl ⟨rfl, rfl⟩)
        · rw [css_reports_ne hr] at hrev
          exact holds_css.mpr (Or.inr ⟨hr, hRB mp rp hrev⟩)
  | unassignAct m r hstat hass =>
    have hHolds : Holds s m r := ⟨hstat, hass⟩
    rw [unassign_some hass]
    refine ⟨?_, ?_, ?_⟩
    · intro mp r1 r2 hh1 hh2
      exact hEx mp r1 r2 (holds_un.mp hh1).2 (holds_un.mp hh2).2
    · intro mp rp hnone hH
      obtain ⟨hrp, hH2⟩ := holds_un.mp hH
      rw [un_pending] at hnone
      by_cases hm : mp = m
      · subst hm
        exact hrp (hEx mp rp r hH2 hHolds)
      · rw [if_neg hm] at hnone
        exact hCov mp rp hnone hH2
    · intro mp rp hrev
      by_cases hr : rp = r
      · subst hr
        rw [un_review] at hrev
        exact Option.noConfusion hrev
      · rw [un_reports_ne hr] at hrev
        exact holds_un.mpr ⟨hr, hRB mp rp hrev⟩
  | resolveAct now m r hstat hass hres =>
    have hHolds : Holds s m r := ⟨hstat, hass⟩
    rw [resolve_eqn hass now] at hres
    have hs2 : s2 = resolvedState now m r s :=
      ((Prod.mk.injEq _ _ _ _).mp (Option.some.inj hres)).1.symm
    rw [hs2]
    refine ⟨?_, ?_, ?_⟩
    · intro mp r1 r2 hh1 hh2
      exact hEx mp r1 r2 (holds_res.mp hh1).2 (holds_res.mp hh2).2
    · intro mp rp hnone hH
      obtain ⟨hrp, hH2⟩ := holds_res.mp hH
      rw [res_pending] at hnone
      by_cases hm : mp = m
      · subst hm
        exact hrp (hEx mp rp r hH2 hHolds)
      · rw [if_neg hm] at hnone
        exact hCov mp rp hnone hH2
    · intro mp rp hrev
      by_cases hr : rp = r
      · subst hr
        rw [res_review] at hrev
        exact Option.noConfusion hrev
      · rw [res_reports_ne hr] at hrev
        exact holds_res.mpr ⟨hr, hRB mp rp hrev⟩

/-- The invariant holds in every state reachable from an initial state. -/
theorem reachable_inv {s0 s : SysState} (h0 : InitOk s0) (hr : Reachable s0 s) :
    Inv s := by
  induction hr with
  | refl =>
    refine ⟨?_, ?_, ?_⟩
    · intro m r1 r2 h1 _
      exact absurd h1.1 (by rw [(h0.1 r1).1]; exact fun h => ReportStatus.noConfusion h)
    · intro m r _ hH
      exact absurd hH.1 (by rw [(h0.1 r).1]; exact fun h => ReportStatus.noConfusion h)
    · intro m r hrev
      rw [(h0.1 r).2] at hrev
      exact Option.noConfusion hrev
  | tail _ hstep ih =>
    exact step_preserves_inv ih hstep

/-! ## Claim theorems -/

/-- C4: the urgency a UserReport is constructed with is the pure function of
(abuse category, victim-is-reporter, urgent flag) given by the table
SPAM 0; HATEFUL, SEXUAL 1; HARASS 3 when the victim is the reporter else 2;
BULLYING 3; VIOLENCE, HARMFUL 4 when urgent else 3; CSAM 4; it always lies in
the range 0..4, and a SPAM report renders its Urgency field as Very Low
whatever the other inputs are. -/
theorem urgency_table : ∀ (v u : Bool),
    urgencyValue .SPAM v u = 0 ∧
    urgencyValue .HATEFUL v u = 1 ∧
    urgencyValue .SEXUAL v u = 1 ∧
    urgencyValue .HARASS v u = (if v then 3 else 2) ∧
    urgencyValue .BULLYING v u = 3 ∧
    urgencyValue .VIOLENCE v u = (if u then 4 else 3) ∧
    urgencyValue .HARMFUL v u = (if u then 4 else 3) ∧
    urgencyValue .CSAM v u = 4 ∧
    (∀ a, urgencyValue a v u ≤ 4) ∧
    urgencyFieldValue (urgencyValue .SPAM v u) = some ("Very Low") := by
  intro v u
  cases v <;> cases u <;>
    exact ⟨rfl, rfl, rfl, rfl, rfl, rfl, rfl, rfl, fun a => by cases a <;> decide, rfl⟩

/-- C10: calling Report.unassign on a report whose assignee is None returns
immediately and changes nothing: the whole client state (this report's
status, assignee, review flow and mirrors, every other report, and the
pending-reports map) is unchanged and no platform effect (in particular no
affordance re-registration) is emitted. -/
theorem unassign_noop (r : Nat) (s : SysState)
    (h : (s.reports r).assignee = none) :
    unassignReport r s = (s, []) :=
  unassign_none h

/-- Witness for unassign_noop at a never-claimed concrete report. -/
theorem unassign_noop_witness : unassignReport 0 demoInit = (demoInit, []) :=
  unassign_noop 0 demoInit rfl

/-- C1: in every state reachable from an initial state, (a) a claim attempt
by a moderator whose pending-reports entry is live is rejected: the client
state is returned completely unchanged and the only effects are removing the
moderator's emoji and the private you-already-have-a-report notice; and
(b) each moderator is bound to at most one live review flow (and, through
the invariant, to at most one pending report). -/
theorem claim_guard_and_exclusivity (s0 s : SysState) (h0 : InitOk s0)
    (hr : Reachable s0 s) :
    (∀ m r msgId v, s.pending_reports m = some v →
      reaction_attempt_assign m r msgId s =
        (s, [Effect.removeUserReaction msgId m, Effect.privateNotice m])) ∧
    (∀ m r1 r2, (s.reports r1).review_flow = some m →
      (s.reports r2).review_flow = some m → r1 = r2) := by
  have hInv := reachable_inv h0 hr
  exact ⟨fun m r msgId v hv => raa_some hv r msgId,
    fun m r1 r2 hh1 hh2 =>
      hInv.1 m r1 r2 (hInv.2.2 m r1 hh1) (hInv.2.2 m r2 hh2)⟩

/-- Witness for claim_guard_and_exclusivity: after moderator 1 claims report
0, their second claim attempt (on the other mirror) is rejected without any
state change. -/
theorem claim_guard_witness :
    reaction_attempt_assign 1 0 6 demoClaimed =
      (demoClaimed, [Effect.removeUserReaction 6 1, Effect.privateNotice 1]) :=
  (claim_guard_and_exclusivity demoInit demoClaimed
      ⟨fun _ => ⟨rfl, rfl⟩, fun _ => rfl⟩
      (Reachable.tail Reachable.refl (Step.claim 1 0 5))).1 1 0 6 0 rfl

theorem filter_sd_after_removal (l : List Mirror) :
    (l.filter (fun mir => !mir.self_destructible)).filter
      (fun mir => mir.self_destructible) = [] := by
  induction l with
  | nil => rfl
  | cons hd tl ih => cases h : hd.self_destructible <;> simp [List.filter_cons, h, ih]

/-- C2 counterexample: report 0, claimed by moderator 1, is resolved as a
UserReport at time 5 and again at time 9.  The first call deletes the
self-destructible mirror and DMs the author; the SECOND call emits another
author DM (a second notification) and overwrites resolution_time from 5 to
9, contradicting the claim that the second call performs no additional
notification and leaves the timestamp as set by the first call. -/
theorem resolve_twice_counterexample :
    (c2first.map (fun p => p.2)) =
      some [Effect.updateEmbeds, Effect.deleteMessage 5, Effect.dmAuthorResolved] ∧
    (c2second.map (fun p => p.2)) =
      some [Effect.updateEmbeds, Effect.dmAuthorResolved] ∧
    (c2first.map (fun p => (p.1.reports 0).resolution_time)) = some (some 5) ∧
    (c2second.map (fun p => (p.1.reports 0).resolution_time)) = some (some 9) :=
  ⟨rfl, rfl, rfl, rfl⟩

/-- C2 (amended): for a claimed report (PENDING with an assignee), a second
UserReport.resolve changes the status exactly once (it is RESOLVED after the
first call and stays RESOLVED) and performs zero additional mirror
deletions; but it does emit one more author DM and it overwrites
resolution_time with the second call's clock reading. -/
theorem resolve_second_call (now1 now2 r : Nat) (m : ModId) (s s1 s2 : SysState)
    (e1 e2 : List Effect)
    (_hstat : (s.reports r).status = .PENDING)
    (hass : (s.reports r).assignee = some m)
    (h1 : resolveUserReport now1 r s = some (s1, e1))
    (h2 : resolveUserReport now2 r s1 = some (s2, e2)) :
    (s1.reports r).status = .RESOLVED ∧
    (s2.reports r).status = .RESOLVED ∧
    (∀ msg, Effect.deleteMessage msg ∉ e2) ∧
    Effect.dmAuthorResolved ∈ e2 ∧
    (s1.reports r).resolution_time = some now1 ∧
    (s2.reports r).resolution_time = some now2 := by
  have h1e : resolveUserReport now1 r s =
      some (resolvedState now1 m r s,
        (.updateEmbeds ::
          ((s.reports r).mirrors.filter (fun mir => mir.self_destructible)).map
            (fun mir => .deleteMessage mir.msgId)) ++ [.dmAuthorResolved]) := by
    unfold resolveUserReport
    rw [resolve_eqn hass now1]
  rw [h1e] at h1
  have hp1 := Option.some.inj h1
  have hs1 : resolvedState now1 m r s = s1 := ((Prod.mk.injEq _ _ _ _).mp hp1).1
  have hass1 : (s1.reports r).assignee = some m := by
    rw [← hs1, res_assignee, hass]
  have h2e : resolveUserReport now2 r s1 =
      some (resolvedState now2 m r s1,
        (.updateEmbeds ::
          ((s1.reports r).mirrors.filter (fun mir => mir.self_destructible)).map
            (fun mir => .deleteMessage mir.msgId)) ++ [.dmAuthorResolved]) := by
    unfold resolveUserReport
    rw [resolve_eqn hass1 now2]
  rw [h2e] at h2
  have hp2 := Option.some.inj h2
  have hs2 : resolvedState now2 m r s1 = s2 := ((Prod.mk.injEq _ _ _ _).mp hp2).1
  have he2 : _ = e2 := ((Prod.mk.injEq _ _ _ _).mp hp2).2
  have hmir1 : (s1.reports r).mirrors =
      (s.reports r).mirrors.filter (fun mir => !mir.self_destructible) := by
    rw [← hs1, res_mirrors]
  have he2nil : ((s1.reports r).mirrors.filter
      (fun mir => mir.self_destructible)).map
        (fun mir => Effect.deleteMessage mir.msgId) = [] := by
    rw [hmir1, filter_sd_after_removal]
    rfl
  refine ⟨by rw [← hs1, res_status], by rw [← hs2, res_status], ?_, ?_,
    by rw [← hs1, res_rtime], by rw [← hs2, res_rtime]⟩
  · intro msg hmem
    rw [← he2, he2nil] at hmem
    simp at hmem
  · rw [← he2, he2nil]
    simp

/-- Witness for resolve_second_call at the concrete double resolution of
report 0. -/
theorem resolve_second_call_witness :
    (c2s1.reports 0).status = .RESOLVED ∧
    (c2s2.reports 0).status = .RESOLVED ∧
    (∀ msg, Effect.deleteMessage msg ∉
      [Effect.updateEmbeds, Effect.dmAuthorResolved]) ∧
    Effect.dmAuthorResolved ∈ [Effect.updateEmbeds, Effect.dmAuthorResolved] ∧
    (c2s1.reports 0).resolution_time = some 5 ∧
    (c2s2.reports 0).resolution_time = some 9 :=
  resolve_second_call 5 9 0 1 demoClaimed c2s1 c2s2
    [Effect.updateEmbeds, Effect.deleteMessage 5, Effect.dmAuthorResolved]
    [Effect.updateEmbeds, Effect.dmAuthorResolved]
    rfl rfl rfl rfl

/-- C3 (code bug): under the alternating cooperative schedule, the two
concurrent claim attempts by moderators 1 and 2 on the same NEW report 0
BOTH run to completion unrejected: the report ends up PENDING with moderator
2 as assignee (overwriting moderator 1), while both moderators receive a
pending review flow for it -- the claimed exactly-one-wins outcome fails.
Moreover, in the claim path no affordance deregistration occurs before the
first suspension point: the only pre-suspension segment is the
pending-reports guard. -/
theorem claim_race_both_succeed :
    ((c3run.1.reports 0).assignee = some 2) ∧
    (c3run.1.pending_reports 1 = some 0) ∧
    (c3run.1.pending_reports 2 = some 0) ∧
    ((c3run.1.reports 0).status = .PENDING) ∧
    (c3run.2.1.rejected = false) ∧
    (c3run.2.2.rejected = false) ∧
    (c3run.2.1.pc = claimScript.length) ∧
    (c3run.2.2.pc = claimScript.length) ∧
    (claimScript.takeWhile (fun x => x != ClaimStep.suspend) = [ClaimStep.guard]) :=
  ⟨rfl, rfl, rfl, rfl, rfl, rfl, rfl, rfl, rfl⟩

/-- C5 counterexample: the quit-then-decline round trip does NOT restore the
prior state for every Flow with a declared quit state.  (a) A review flow at
REVIEW_START receiving cancel and then the decline reply "no" ends in
REVIEW_QUIT, not back in REVIEW_START: review_quit unassigns on entry and
ignores the reply.  (b) A creation flow in REPORT_START ends in
AWAITING_MESSAGE_LINK, because the REPORT_START introduction immediately
advances. -/
theorem quit_revert_counterexample :
    ((reviewForward noMsg (reviewForward cancelMsg c5review0)).state = .REVIEW_QUIT ∧
      (reviewForward noMsg (reviewForward cancelMsg c5review0)).state ≠ .REVIEW_START) ∧
    ((creationForward noMsg (creationForward cancelMsg c5creationStart)).state =
        .AWAITING_MESSAGE_LINK ∧
      (creationForward noMsg (creationForward cancelMsg c5creationStart)).state ≠
        .REPORT_START) := by
  decide

/-- C5 (amended): for the report creation flow, from any state other than
REPORT_START (whose introduction auto-advances) and with any field values,
sending a cancel keyword moves the flow to REPORT_QUIT, and the decline
reply "no" then returns it to the original state with all flow-local fields
identical.  The review flows do not satisfy the round trip (their quit state
unassigns immediately and never reverts; see the counterexample). -/
theorem quit_decline_restores (f : CreationFlow) (c : String)
    (hstart : f.state ≠ .REPORT_START)
    (hc : CANCEL_KEYWORDS.contains (lowerStr c) = true) :
    (creationForward c f).state = .REPORT_QUIT ∧
    (creationForward noMsg (creationForward c f)).state = f.state ∧
    (creationForward noMsg (creationForward c f)).fields = f.fields := by
  have hc2 : lowerStr c ∈ CANCEL_KEYWORDS := by
    simpa using hc
  have h1 : creationForward c f =
      { f with prequit_state := some f.state, state := .REPORT_QUIT } := by
    simp [creationForward, hc2]
  have h2 : creationForward noMsg
      { f with prequit_state := some f.state, state := CState.REPORT_QUIT } =
      { creationTransition f.state
          { f with prequit_state := some f.state, state := CState.REPORT_QUIT } with
        prequit_state := none } := by
    have hno : lowerStr noMsg ∉ CANCEL_KEYWORDS := by decide
    have hnohelp : lowerStr noMsg ∉ HELP_KEYWORDS := by decide
    have hnoyes : lowerStr noMsg ∉ YES_KEYWORDS := by decide
    have hnono : lowerStr noMsg ∈ NO_KEYWORDS := by decide
    simp [creationForward, creationResolve, hno, hnohelp, hnoyes, hnono]
  rw [h1, h2]
  obtain ⟨st, pq, fl, op⟩ := f
  cases st <;>
    first
      | exact absurd rfl hstart
      | exact ⟨rfl, rfl, rfl⟩

/-- Witness for quit_decline_restores: cancelling at the comment prompt and
declining returns the flow to ADD_COMMENT with the fields untouched. -/
theorem quit_decline_restores_witness :
    (creationForward cancelMsg c5commentFlow).state = .REPORT_QUIT ∧
    (creationForward noMsg (creationForward cancelMsg c5commentFlow)).state =
      c5commentFlow.state ∧
    (creationForward noMsg (creationForward cancelMsg c5commentFlow)).fields =
      c5commentFlow.fields :=
  quit_decline_restores c5commentFlow cancelMsg (by decide) (by decide)

/-- C6: a handler produced by simulate_reply_handler dispatches the simulated
reply exactly when the flow's current state equals the state frozen at the
handler's creation; when the state has moved on (including past the end of
the conversation), invoking it performs no dispatch and changes nothing. -/
theorem frozen_state_guard (frozenState : CState) (msg : String) (f : CreationFlow) :
    (f.state ≠ frozenState → simulate_reply_handler frozenState msg f = f) ∧
    (f.state = frozenState →
      simulate_reply_handler frozenState msg f = creationForward msg f) := by
  constructor
  · intro h
    simp [simulate_reply_handler, h]
  · intro h
    simp [simulate_reply_handler, h]

/-- Witness for frozen_state_guard: a stale yes-click frozen at ADD_COMMENT
fired after the flow moved to FINALIZE_REPORT is a no-op. -/
theorem frozen_state_guard_witness :
    simulate_reply_handler .ADD_COMMENT yesMsg c6staleFlow = c6staleFlow :=
  (frozen_state_guard .ADD_COMMENT yesMsg c6staleFlow).1 (by decide)

theorem mem_foldl_unregister (x : RegEntry) :
    ∀ (rs : List RegEntry) (l : Registry),
      x ∈ rs.foldl (fun acc e => unregister_message e.msgId e.regId acc) l →
      x ∈ l ∧ ∀ e ∈ rs, ¬(x.msgId = e.msgId ∧ x.regId = e.regId) := by
  intro rs
  induction rs with
  | nil =>
    intro l h
    exact ⟨h, by simp⟩
  | cons hd tl ih =>
    intro l h
    rw [List.foldl_cons] at h
    obtain ⟨hx, hrest⟩ := ih _ h
    have hx2 := List.mem_filter.mp hx
    refine ⟨hx2.1, ?_⟩
    intro e he
    rcases List.mem_cons.mp he with he | he
    · subst he
      intro hcontra
      have hp := hx2.2
      simp [hcontra.1, hcontra.2] at hp
    · exact hrest e he

/-- C7 counterexample: card 3 carries three once-per-message numbered-choice
registrations; a non-bot user adds the UNREGISTERED emoji 40.  No handler
fires (the fired list is empty), yet all three registrations are
deregistered -- so the sweep is not triggered only by a matching firing. -/
theorem reaction_sweep_counterexample :
    (on_reaction_add 99 1 3 40 c7reg).2 = [] ∧
    (on_reaction_add 99 1 3 40 c7reg).1 = [] ∧
    c7reg ≠ [] := by
  decide

/-- C7 (amended): after ANY acknowledgement-added event on a card from a
non-bot user -- whether or not its emoji matches a registration -- no
once-per-message registration on that card survives (in particular, after
the first matching acknowledgement the remaining N-1 are deregistered); and
the handlers that fire are exactly those of the registrations on that card
whose emoji matches the event. -/
theorem once_per_message_sweep (clientUser user msgId emoji : Nat) (reg : Registry)
    (h : user ≠ clientUser) :
    (∀ e, e ∈ (on_reaction_add clientUser user msgId emoji reg).1 →
      e.msgId = msgId → e.once_per_message = false) ∧
    (on_reaction_add clientUser user msgId emoji reg).2 =
      (reg.filter (fun e => e.msgId == msgId && e.emoji == emoji)).map
        (fun e => e.regId) := by
  constructor
  · intro e hmem hm
    cases ho : e.once_per_message with
    | false => rfl
    | true =>
      exfalso
      rw [on_reaction_add, if_neg h] at hmem
      obtain ⟨hin, hall⟩ := mem_foldl_unregister e _ _ hmem
      have hself : e ∈ reg.filter (fun d => d.msgId == msgId && d.once_per_message) :=
        List.mem_filter.mpr ⟨hin, by simp [hm, ho]⟩
      exact (hall e hself) ⟨rfl, rfl⟩
  · simp [on_reaction_add, h]

/-- Witness for once_per_message_sweep: user 1 (not the bot, user 99) adds
the registered emoji 11 on card 3. -/
theorem once_per_message_sweep_witness :
    (∀ e, e ∈ (on_reaction_add 99 1 3 11 c7reg).1 →
      e.msgId = 3 → e.once_per_message = false) ∧
    (on_reaction_add 99 1 3 11 c7reg).2 =
      (c7reg.filter (fun e => e.msgId == 3 && e.emoji == 11)).map
        (fun e => e.regId) :=
  once_per_message_sweep 99 1 3 11 c7reg (by decide)

/-- C8 (code bug): an edit crossing no threshold drives the flow to
ACCEPTABLE_EDIT and closes it without error, but close() leaves
second_timer_cancelled false, so the countdown keeps ticking after closure:
the next tick advances time_elapsed, and the tick that reaches
expiration_time still forces the TIME_EXPIRED transition, which deletes the
already-accepted message.  The claim that closing cancels the countdown with
no further ticks is contradicted. -/
theorem edited_close_keeps_timer :
    c8closed.state = .ACCEPTABLE_EDIT ∧
    c8closed.closed = true ∧
    (edited goodScores c8flow0).2 = none ∧
    c8closed.second_timer_cancelled = false ∧
    c8tick1.time_elapsed = 1 ∧
    c8tick2.1.state = .TIME_EXPIRED ∧
    c8tick2.1.message_deleted = true := by
  have hsb : still_bad goodScores = false := by
    norm_num [still_bad, goodScores]
  have he : edited goodScores c8flow0 =
      ({ state := .ACCEPTABLE_EDIT, time_elapsed := 0, expiration_time := 2,
         second_timer_cancelled := false, timer_message_live := false,
         closed := true, message_deleted := false }, none) := by
    unfold edited
    rw [hsb]
    rfl
  have hc8 : c8closed =
      { state := .ACCEPTABLE_EDIT, time_elapsed := 0, expiration_time := 2,
        second_timer_cancelled := false, timer_message_live := false,
        closed := true, message_deleted := false } := by
    unfold c8closed
    rw [he]
  refine ⟨by rw [hc8], by rw [hc8], by rw [he], by rw [hc8], ?_, ?_, ?_⟩
  · show c8tick1.time_elapsed = 1
    unfold c8tick1 c8closed
    rw [he]
    decide
  · show c8tick2.1.state = .TIME_EXPIRED
    unfold c8tick2 c8tick1 c8closed
    rw [he]
    decide
  · show c8tick2.1.message_deleted = true
    unfold c8tick2 c8tick1 c8closed
    rw [he]
    decide

/-- C9 (code bug): when the timer-card edit fails because the card has
vanished (NotFound), the misspelled handler clause
(except discord.errorsNotFound) raises AttributeError out of the countdown
task: the tick returns the error instead of catching it, and the timer-card
reference is NOT cleared.  The claim that the failure is caught, the
reference cleared and counting continues is contradicted -- the task
aborts. -/
theorem timer_edit_failure_aborts :
    timerTick .notFound c9flow0 =
      ({ c9flow0 with time_elapsed := 4 }, some .attributeError) ∧
    ({ c9flow0 with time_elapsed := 4 } : EFlow).timer_message_live = true := by
  decide

end CS152
